import Mathlib

/-!
Shallow embedding of the wgpu-tutorial repository's core logic
(src/camera.rs, src/model.rs, and the `Flip` selector of src/main.rs),
with the camera's f32 arithmetic idealized as exact real arithmetic.
-/

namespace WgpuTutorial

/-- 3-component vector / point, modelling cgmath's Vector3<f32> and
Point3<f32> with exact reals. -/
@[ext]
structure Vec3 where
  x : ℝ
  y : ℝ
  z : ℝ

namespace Vec3

def add (a b : Vec3) : Vec3 := ⟨a.x + b.x, a.y + b.y, a.z + b.z⟩

def sub (a b : Vec3) : Vec3 := ⟨a.x - b.x, a.y - b.y, a.z - b.z⟩

def smul (a : Vec3) (t : ℝ) : Vec3 := ⟨a.x * t, a.y * t, a.z * t⟩

/-- cgmath's `Vector3::cross`. -/
def cross (a b : Vec3) : Vec3 :=
  ⟨a.y * b.z - a.z * b.y, a.z * b.x - a.x * b.z, a.x * b.y - a.y * b.x⟩

/-- cgmath's `dot`. -/
def dot (a b : Vec3) : ℝ := a.x * b.x + a.y * b.y + a.z * b.z

/-- cgmath's `Vector3::unit_y()`. -/
def unit_y : Vec3 := ⟨0, 1, 0⟩

/-- Euclidean magnitude, cgmath's `magnitude`. -/
noncomputable def magnitude (a : Vec3) : ℝ := Real.sqrt (dot a a)

/-- cgmath's `InnerSpace::normalize`: `self * (1 / magnitude)`.
Note that in Rust this consumes `self` by value and RETURNS the
normalized copy; it does not mutate in place. -/
noncomputable def normalize (a : Vec3) : Vec3 := a.smul (1 / a.magnitude)

end Vec3

/-- The `Camera` struct of src/camera.rs. -/
structure Camera where
  eye : Vec3
  target : Vec3
  up : Vec3
  aspect : ℝ
  fovy : ℝ
  znear : ℝ
  zfar : ℝ

/-- `Camera::pan` (src/camera.rs lines 38-48), translated exactly.
The source computes `forwards = target - eye`, zeroes its y component,
then calls `forwards.normalize()` and DISCARDS the returned value
(cgmath's `normalize` returns the normalized copy; `forwards` itself is
left unchanged), so the offset below is built from the unnormalized
flattened forward vector. -/
def Camera.pan (c : Camera) (mov : Vec3) : Camera :=
  let forwards : Vec3 := ⟨(c.target.sub c.eye).x, 0, (c.target.sub c.eye).z⟩
  let upwards : Vec3 := Vec3.unit_y
  let sideways : Vec3 := forwards.cross upwards
  let offset : Vec3 :=
    ((forwards.smul (-mov.z)).add (sideways.smul mov.x)).add (upwards.smul mov.y)
  { c with eye := c.eye.add offset, target := c.target.add offset }

/-- `Camera::rotate_h` (src/camera.rs lines 50-61). -/
noncomputable def Camera.rotate_h (c : Camera) (angle : ℝ) : Camera :=
  let sa := Real.sin angle
  let ca := Real.cos angle
  let off_target := c.target.sub c.eye
  let new_off_target : Vec3 :=
    ⟨off_target.x * ca - off_target.z * sa,
     off_target.y,
     off_target.z * ca + off_target.x * sa⟩
  { c with target := c.eye.add new_off_target }

/-- `Camera::rotate_v` (src/camera.rs lines 63-65): `self.eye.y -= dy`. -/
def Camera.rotate_v (c : Camera) (dy : ℝ) : Camera :=
  { c with eye := ⟨c.eye.x, c.eye.y - dy, c.eye.z⟩ }

/-- The `OPENGL_TO_WGPU_MATRIX` constant of src/camera.rs (cgmath's
`Matrix4::new` takes its arguments column-major; this is the same matrix
in the usual row-major mathematical orientation, acting on column
vectors). -/
def OPENGL_TO_WGPU_MATRIX : Matrix (Fin 4) (Fin 4) ℝ :=
  !![1, 0, 0,   0;
     0, 1, 0,   0;
     0, 0, 0.5, 0.5;
     0, 0, 0,   1]

/-- cgmath's `Matrix4::look_at_rh(eye, center, up)`:
`f = (center - eye).normalize(); s = f.cross(up).normalize();
u = s.cross(f)`, assembled column-major; written here row-major. -/
noncomputable def look_at_rh (eye center up : Vec3) : Matrix (Fin 4) (Fin 4) ℝ :=
  let f := (center.sub eye).normalize
  let s := (f.cross up).normalize
  let u := s.cross f
  !![s.x,  s.y,  s.z,  -(Vec3.dot eye s);
     u.x,  u.y,  u.z,  -(Vec3.dot eye u);
     -f.x, -f.y, -f.z, Vec3.dot eye f;
     0,    0,    0,    1]

/-- cgmath's `perspective(Deg(fovy), aspect, near, far)`: the fovy in
degrees is converted to radians, and the matrix is built from
`f = cot(fovy_rad / 2)` (row-major orientation). -/
noncomputable def perspective (fovy aspect near far : ℝ) : Matrix (Fin 4) (Fin 4) ℝ :=
  let fovyRad := fovy * Real.pi / 180
  let f := 1 / Real.tan (fovyRad / 2)
  !![f / aspect, 0, 0,                           0;
     0,          f, 0,                           0;
     0,          0, (far + near) / (near - far), 2 * far * near / (near - far);
     0,          0, -1,                          0]

/-- `Camera::build_view_projection_matrix` (src/camera.rs lines 14-18):
`OPENGL_TO_WGPU_MATRIX * proj * view`. -/
noncomputable def Camera.build_view_projection_matrix (c : Camera) :
    Matrix (Fin 4) (Fin 4) ℝ :=
  let view := look_at_rh c.eye c.target c.up
  let proj := perspective c.fovy c.aspect c.znear c.zfar
  OPENGL_TO_WGPU_MATRIX * proj * view

/-- The `CameraUniform` struct of src/camera.rs. -/
structure CameraUniform where
  view_proj : Matrix (Fin 4) (Fin 4) ℝ

/-- `Camera::to_uniform`: rebuilds the view-projection matrix on every
call (no cached field exists on `Camera`). -/
noncomputable def Camera.to_uniform (c : Camera) : CameraUniform :=
  { view_proj := c.build_view_projection_matrix }

/-- The `Flip<T>` struct of src/main.rs (lines 46-66): two alternatives
(the `[T; 2]` array modelled as an ordered pair) plus a boolean state. -/
structure Flip (α : Type) where
  alternatives : α × α
  state : Bool

/-- `Flip::new(first, second)`: state starts at `false`. -/
def Flip.new {α : Type} (first second : α) : Flip α :=
  { alternatives := (first, second), state := false }

/-- `Flip::flip`: `self.state = !self.state`. -/
def Flip.flip {α : Type} (f : Flip α) : Flip α :=
  { f with state := !f.state }

/-- `Flip::get`: `&self.alternatives[if self.state { 1 } else { 0 }]`. -/
def Flip.get {α : Type} (f : Flip α) : α :=
  if f.state then f.alternatives.2 else f.alternatives.1

/-- The `Vertex` struct of src/model.rs, with f32 idealized as ℚ so the
concrete geometry examples are decidable. -/
structure Vertex where
  position : ℚ × ℚ × ℚ
  uv : ℚ × ℚ
deriving DecidableEq

/-- The `ModelData` struct of src/model.rs (indices are u16; the values
appearing in the claims are far below 2^16, so they are modelled as ℕ). -/
structure ModelData where
  positions : List (ℚ × ℚ × ℚ)
  uvs : List (ℚ × ℚ)
  indices : List ℕ

/-- `ModelData::vertices` (src/model.rs lines 45-51):
`positions.iter().zip(uvs.iter()).map(|(&position, &uv)| Vertex { position, uv })`.
Rust's `zip` stops at the shorter iterator, exactly like `List.zipWith`. -/
def ModelData.vertices (md : ModelData) : List Vertex :=
  List.zipWith (fun position uv => Vertex.mk position uv) md.positions md.uvs

/-- `ModelData::indices` (src/model.rs lines 53-55): returns the indices
unchanged. -/
def ModelData.indices_fn (md : ModelData) : List ℕ := md.indices

/-- The logical content of `Model` (src/model.rs lines 65-69): the data
uploaded into the vertex and index buffers, and `num_vertices`. -/
structure Model where
  vertex_buffer : List Vertex
  index_buffer : List ℕ
  num_vertices : ℕ

/-- `Model::new` (src/model.rs lines 72-93): uploads `model_data.vertices()`
and `model_data.indices()` and sets `num_vertices = indices.len()`. -/
def Model.new (model_data : ModelData) : Model :=
  let vertices := model_data.vertices
  let indices := model_data.indices_fn
  { vertex_buffer := vertices
    index_buffer := indices
    num_vertices := indices.length }

/-- The index range the renderer draws
(`render_pass.draw_indexed(0..self.model.num_vertices(), 0, 0..1)`,
src/main.rs line 423). -/
def drawIndexedRange (m : Model) : ℕ × ℕ := (0, m.num_vertices)

/-- Modelled from the spec: the deserialization of `ModelData` performed
by `ModelData::load` via `serde_json::from_reader` (the serde-derived
decoder itself is generated code outside src/). The spec: the loader
"deserializes a structured description (positions, uvs, indices) from a
byte stream; fails with a DeserializationError if the structure is
malformed, missing fields"; a parsed record whose fields may each be
absent either yields a fully populated `ModelData` or a descriptive
error naming the missing field. -/
structure RawModelInput where
  positions : Option (List (ℚ × ℚ × ℚ))
  uvs : Option (List (ℚ × ℚ))
  indices : Option (List ℕ)

/-- Modelled from the spec: `ModelData::load` on an already-parsed
record (see `RawModelInput`): every field must be present, otherwise a
descriptive error is returned and no `ModelData` is produced. -/
def ModelData.load (r : RawModelInput) : Except String ModelData :=
  match r.positions with
  | none => .error "missing field positions"
  | some ps =>
    match r.uvs with
    | none => .error "missing field uvs"
    | some us =>
      match r.indices with
      | none => .error "missing field indices"
      | some idx => .ok { positions := ps, uvs := us, indices := idx }

/-- The forward vector of `pan` as the spec words it (claim C1): the
vector `target - eye` with its y-component set to zero and THEN
normalized to unit length; the rest of `pan` is unchanged. Kept for
comparison against `Camera.pan`, which embeds the source as written. -/
noncomputable def Camera.pan_spec (c : Camera) (mov : Vec3) : Camera :=
  let forwards : Vec3 :=
    (⟨(c.target.sub c.eye).x, 0, (c.target.sub c.eye).z⟩ : Vec3).normalize
  let upwards : Vec3 := Vec3.unit_y
  let sideways : Vec3 := forwards.cross upwards
  let offset : Vec3 :=
    ((forwards.smul (-mov.z)).add (sideways.smul mov.x)).add (upwards.smul mov.y)
  { c with eye := c.eye.add offset, target := c.target.add offset }

/-- A camera whose flattened forward vector `(0, 0, 2)` has length 2, so
normalizing it (or failing to) is observable in the pan offset. -/
def panBugCamera : Camera :=
  { eye := ⟨0, 0, 0⟩, target := ⟨0, 0, 2⟩, up := ⟨0, 1, 0⟩,
    aspect := 1, fovy := 45, znear := 0.1, zfar := 100 }

/-! ## Theorems -/

/-- Helper: the eye-to-target offset after `rotate_h` is the XZ-plane
rotation of the original offset. -/
theorem Camera.rotate_h_offset (c : Camera) (b : ℝ) :
    ((c.rotate_h b).target).sub ((c.rotate_h b).eye) =
      ⟨(c.target.sub c.eye).x * Real.cos b - (c.target.sub c.eye).z * Real.sin b,
       (c.target.sub c.eye).y,
       (c.target.sub c.eye).z * Real.cos b + (c.target.sub c.eye).x * Real.sin b⟩ := by
  ext <;> simp [Camera.rotate_h, Vec3.add, Vec3.sub]

/-- C3: `rotate_h(a)` preserves the Euclidean length of the offset
`target - eye` and leaves its y-component unchanged, and `rotate_h(2π)`
returns the offset to its original value (exactly, in the real-number
idealization of f32). -/
theorem Camera.rotate_h_preserves_length_and_y (c : Camera) (a : ℝ) :
    (((c.rotate_h a).target).sub ((c.rotate_h a).eye)).magnitude
      = (c.target.sub c.eye).magnitude ∧
    (((c.rotate_h a).target).sub ((c.rotate_h a).eye)).y = (c.target.sub c.eye).y ∧
    ((c.rotate_h (2 * Real.pi)).target).sub ((c.rotate_h (2 * Real.pi)).eye)
      = c.target.sub c.eye := by
  refine ⟨?_, ?_, ?_⟩
  · rw [Vec3.magnitude, Vec3.magnitude, Camera.rotate_h_offset c a]
    congr 1
    simp only [Vec3.dot, Vec3.sub]
    linear_combination
      ((c.target.x - c.eye.x) ^ 2 + (c.target.z - c.eye.z) ^ 2)
        * Real.sin_sq_add_cos_sq a
  · rw [Camera.rotate_h_offset c a]
  · rw [Camera.rotate_h_offset c (2 * Real.pi)]
    ext <;> simp [Real.cos_two_pi, Real.sin_two_pi, Vec3.sub]

/-- C4: `rotate_h(a)` followed by `rotate_h(-a)` restores the original
target, and `rotate_h` never moves the eye. -/
theorem Camera.rotate_h_roundtrip (c : Camera) (a : ℝ) :
    ((c.rotate_h a).rotate_h (-a)).target = c.target ∧
    (c.rotate_h a).eye = c.eye := by
  refine ⟨?_, rfl⟩
  ext
  · simp only [Camera.rotate_h, Vec3.add, Vec3.sub, Real.cos_neg, Real.sin_neg]
    linear_combination (c.target.x - c.eye.x) * Real.sin_sq_add_cos_sq a
  · simp only [Camera.rotate_h, Vec3.add, Vec3.sub, Real.cos_neg, Real.sin_neg]
    ring
  · simp only [Camera.rotate_h, Vec3.add, Vec3.sub, Real.cos_neg, Real.sin_neg]
    linear_combination (c.target.z - c.eye.z) * Real.sin_sq_add_cos_sq a

/-- C1: the claim says `pan` normalizes the flattened forward vector
before building the offset, but the source discards the value returned
by `normalize()` (cgmath's `normalize` consumes `self` and returns the
normalized copy), so the offset is built from the UNNORMALIZED forward
vector: on `panBugCamera` (flattened forward `(0,0,2)`, length 2) with
movement `(0,0,-1)` the code moves the eye by `(0,0,2)` while the
claim's normalized forward would move it by `(0,0,1)`. -/
theorem Camera.pan_normalize_discarded :
    (panBugCamera.pan ⟨0, 0, -1⟩).eye = ⟨0, 0, 2⟩ ∧
    (panBugCamera.pan_spec ⟨0, 0, -1⟩).eye = ⟨0, 0, 1⟩ ∧
    (panBugCamera.pan ⟨0, 0, -1⟩).eye ≠ (panBugCamera.pan_spec ⟨0, 0, -1⟩).eye := by
  have h1 : (panBugCamera.pan ⟨0, 0, -1⟩).eye = ⟨0, 0, 2⟩ := by
    ext <;>
      simp [Camera.pan, panBugCamera, Vec3.add, Vec3.sub, Vec3.smul, Vec3.cross,
        Vec3.unit_y]
  have h2 : (panBugCamera.pan_spec ⟨0, 0, -1⟩).eye = ⟨0, 0, 1⟩ := by
    ext <;>
      simp [Camera.pan_spec, panBugCamera, Vec3.add, Vec3.sub, Vec3.smul, Vec3.cross,
        Vec3.unit_y, Vec3.normalize, Vec3.magnitude, Vec3.dot]
  refine ⟨h1, h2, ?_⟩
  rw [h1, h2]
  norm_num [Vec3.mk.injEq]

/-- C2: the view-projection matrix (hence `to_uniform`) is the product
`C * P * V` of the depth-correction constant, the perspective matrix
from fovy/aspect/znear/zfar, and the right-handed look-at view matrix
from eye/target/up; and `C` acts on homogeneous vectors by scaling z by
0.5 and translating it by 0.5·w, leaving x, y and w unchanged. -/
theorem Camera.view_projection_structure (c : Camera) (x y z w : ℝ) :
    (c.to_uniform).view_proj =
      OPENGL_TO_WGPU_MATRIX * perspective c.fovy c.aspect c.znear c.zfar
        * look_at_rh c.eye c.target c.up ∧
    OPENGL_TO_WGPU_MATRIX.mulVec ![x, y, z, w] = ![x, y, 0.5 * z + 0.5 * w, w] := by
  refine ⟨rfl, ?_⟩
  funext i
  fin_cases i <;>
    simp [OPENGL_TO_WGPU_MATRIX, Matrix.mulVec, Matrix.dotProduct,
      Fin.sum_univ_four]

/-- C6: `Flip::new(A, B).get()` returns `A`; after one `flip()` it returns
`B`; after two `flip()`s it returns `A` again; `flip` is an involution;
and `get` always returns one of the two stored alternatives. -/
theorem Flip.alternation_contract {α : Type} (A B : α) (f : Flip α) :
    (Flip.new A B).get = A ∧
    ((Flip.new A B).flip).get = B ∧
    (((Flip.new A B).flip).flip).get = A ∧
    f.flip.flip = f ∧
    (f.get = f.alternatives.1 ∨ f.get = f.alternatives.2) := by
  refine ⟨rfl, rfl, rfl, ?_, ?_⟩
  · cases f with
    | mk alts st => cases st <;> rfl
  · cases f with
    | mk alts st =>
      cases st
      · exact Or.inl rfl
      · exact Or.inr rfl

/-- C8: `rotate_v(dy)` subtracts `dy` from `eye.y` and changes nothing
else: target, eye.x, eye.z, up, aspect, fovy, znear, zfar all unchanged. -/
theorem Camera.rotate_v_shifts_only_eye_y (c : Camera) (dy : ℝ) :
    (c.rotate_v dy).eye.y = c.eye.y - dy ∧
    (c.rotate_v dy).eye.x = c.eye.x ∧
    (c.rotate_v dy).eye.z = c.eye.z ∧
    (c.rotate_v dy).target = c.target ∧
    (c.rotate_v dy).up = c.up ∧
    (c.rotate_v dy).aspect = c.aspect ∧
    (c.rotate_v dy).fovy = c.fovy ∧
    (c.rotate_v dy).znear = c.znear ∧
    (c.rotate_v dy).zfar = c.zfar :=
  ⟨rfl, rfl, rfl, rfl, rfl, rfl, rfl, rfl, rfl⟩

/-- C10: `Model::new` sets `num_vertices` to the length of the indices
array (the count handed to `draw_indexed`), not the length of the
positions array; witnessed by a model with 4 positions and 6 indices. -/
theorem Model.num_vertices_counts_indices (md : ModelData) :
    (Model.new md).num_vertices = md.indices.length ∧
    drawIndexedRange (Model.new md) = (0, md.indices.length) ∧
    (Model.new (ModelData.mk
      [(0,0,0), (1,0,0), (0,1,0), (0,0,1)]
      [(0,0), (1,0), (0,1), (1,1)]
      [0, 1, 2, 0, 2, 3])).num_vertices = 6 ∧
    (6 : ℕ) ≠ ([(0,0,0), (1,0,0), (0,1,0), (0,0,1)] :
      List (ℚ × ℚ × ℚ)).length :=
  ⟨rfl, rfl, rfl, by decide⟩

/-- C5: `pan` translates eye and target by the same offset, so the
offset `target - eye` (and hence the distance `|target - eye|`) is
unchanged; `pan(0,0,0)` is the identity on the camera. -/
theorem Camera.pan_rigid (c : Camera) (mov : Vec3) :
    ((c.pan mov).target).sub ((c.pan mov).eye) = c.target.sub c.eye ∧
    (((c.pan mov).target).sub ((c.pan mov).eye)).magnitude
      = (c.target.sub c.eye).magnitude ∧
    c.pan ⟨0, 0, 0⟩ = c := by
  have hsub : ((c.pan mov).target).sub ((c.pan mov).eye) = c.target.sub c.eye := by
    ext <;>
      simp [Camera.pan, Vec3.add, Vec3.sub, Vec3.smul, Vec3.cross, Vec3.unit_y]
  refine ⟨hsub, by rw [hsub], ?_⟩
  cases c with
  | mk e t u a f n fa =>
    simp only [Camera.pan, Camera.mk.injEq]
    refine ⟨?_, ?_, trivial, trivial, trivial, trivial, trivial⟩ <;>
      (ext <;> simp [Vec3.add, Vec3.smul, Vec3.cross, Vec3.sub, Vec3.unit_y])

/-- C7: `vertices()` is the pairwise zip of positions and uvs truncated
to the shorter length (element `i` pairs `positions[i]` with `uvs[i]`,
expressed with optional indexing so truncation is covered); on the
concrete triangle example it yields exactly 3 records in order, and
`indices()` returns `[0, 1, 2]` unchanged. -/
theorem ModelData.vertices_zip_pairwise (md : ModelData) (i : ℕ) :
    md.vertices.length = min md.positions.length md.uvs.length ∧
    md.vertices.get? i =
      Option.map₂ (fun p uv => Vertex.mk p uv) (md.positions.get? i) (md.uvs.get? i) ∧
    (ModelData.mk [(0,0,0), (1,0,0), (0,1,0)] [(0,0), (1,0), (0,1)]
      [0, 1, 2]).vertices =
      [Vertex.mk (0,0,0) (0,0), Vertex.mk (1,0,0) (1,0), Vertex.mk (0,1,0) (0,1)] ∧
    (ModelData.mk [(0,0,0), (1,0,0), (0,1,0)] [(0,0), (1,0), (0,1)]
      [0, 1, 2]).indices_fn = [0, 1, 2] := by
  refine ⟨List.length_zipWith _ _ _, ?_, rfl, rfl⟩
  rw [ModelData.vertices, List.get?_zipWith']
  cases md.positions.get? i <;> cases md.uvs.get? i <;> rfl

/-- C9: a parsed geometry record whose `indices` field is missing makes
the loader return a descriptive (non-empty) error, never a `ModelData`. -/
theorem ModelData.load_missing_indices_errors (r : RawModelInput)
    (h : r.indices = none) :
    ∃ msg, ModelData.load r = .error msg ∧ msg ≠ "" := by
  cases hp : r.positions with
  | none => exact ⟨"missing field positions", by simp [ModelData.load, hp], by decide⟩
  | some ps =>
    cases hu : r.uvs with
    | none => exact ⟨"missing field uvs", by simp [ModelData.load, hp, hu], by decide⟩
    | some us =>
      exact ⟨"missing field indices", by simp [ModelData.load, hp, hu, h], by decide⟩

/-- Witness for C9 at a concrete input: both other fields present,
`indices` absent. -/
theorem ModelData.load_missing_indices_errors_witness :
    ∃ msg, ModelData.load (RawModelInput.mk (some [(0,0,0)]) (some [(0,0)]) none)
      = .error msg ∧ msg ≠ "" :=
  ModelData.load_missing_indices_errors _ rfl

end WgpuTutorial
